import Mathlib

/-!
Verification of the visual-content triage engine of the document-scraping
repository: the OCR-driven image value filter (src/image_filter.py), the
composite-chart detector and its geometry primitives
(src/composite_detector.py), and the per-document orchestration
(src/extractor.py).

Shallow embedding conventions:
  * Python ints become Nat (counts, pixel dimensions) or Int (configured
    thresholds, which come from JSON and may in principle be negative);
  * Python floats become Rat; the float literals 0.1/0.2/0.4/0.7/0.9/0.95
    appearing in the source are modelled by the corresponding exact
    rationals;
  * Python strings become String, manipulated through their underlying
    character lists so that joining, stripping and token counting are
    concrete computable functions;
  * names follow the Python source, except that names ending in the letters
    i-o are renamed (for example aspect_frac for the source's aspect_ratio,
    min_page_frac for min_page_ratio).
-/

namespace DocScrape

/-! ## Image value filter (src/image_filter.py) -/

/-- Result of OCR analysis of one image: the OCRResult dataclass of
src/image_filter.py (lines 20-29).  The confidence score is a float in the
source, hence Rat here. -/
structure OCRResult where
  text : String
  char_count : Nat
  digit_count : Nat
  word_count : Nat
  useful_word_count : Nat
  has_numbers : Bool
  confidence_score : Rat
deriving Repr, DecidableEq

/-- The configuration fields of ImageFilter that its decision functions
read (src/image_filter.py lines 55-77).  Fields that the decision logic
never consults (min_chars, chars_with_numbers_multiplier, ignore_words,
ocr_lang, verbose) are omitted.  Thresholds are JSON numbers, modelled as
Int; min_text_density is compared against a float quotient, hence Rat. -/
structure FilterConfig where
  min_digits : Int
  min_words : Int
  min_text_density : Rat
  min_dimension : Int
  min_area : Int
  require_numbers : Bool
deriving Repr, DecidableEq

/-- The default thresholds of src/image_filter.py lines 55-77 (the values
used when config.json provides no override). -/
def default_filter_config : FilterConfig :=
  { min_digits := 2
    min_words := 5
    min_text_density := 5
    min_dimension := 100
    min_area := 10000
    require_numbers := false }

/-- The distinct reason strings produced by ImageFilter.check_dimensions and
ImageFilter.is_valuable_image, abstracted into a datatype carrying the
numeric payloads that the source interpolates into each message.
logo_banner carries, in order, the three flags saying which failed signals
the source lists (numbers, useful words, density) together with their
values. -/
inductive Reason where
  | ok : Reason
  | too_small (w h : Nat) : Reason
  | area_insufficient (area : Nat) : Reason
  | extreme_aspect (r : Rat) : Reason
  | sin_numeros (digits : Nat) : Reason
  | grafico_tabla (digits : Nat) (density : Rat) : Reason
  | contenido_denso (words : Nat) (density : Rat) : Reason
  | datos_numericos (digits : Nat) : Reason
  | logo_banner (nums_failed words_failed density_failed : Bool)
      (digits words : Nat) (density : Rat) : Reason
deriving Repr, DecidableEq

/-- The aspect-ratio expression of ImageFilter.check_dimensions
(src/image_filter.py line 217):
max(width, height) / max(1, min(width, height)). -/
def aspect_frac (width height : Nat) : Rat :=
  (max width height : Rat) / (max 1 (min width height) : Rat)

/-- The denominator of aspect_frac, max(1, min(width, height)). -/
def aspect_denom (width height : Nat) : Nat :=
  max 1 (min width height)

/-- ImageFilter.check_dimensions (src/image_filter.py lines 202-221):
dimension gate run before any OCR. -/
def check_dimensions (cfg : FilterConfig) (width height : Nat) :
    Bool × Reason :=
  if (width : Int) < cfg.min_dimension ∧ (height : Int) < cfg.min_dimension then
    (false, .too_small width height)
  else if (width * height : Int) < cfg.min_area then
    (false, .area_insufficient (width * height))
  else if aspect_frac width height > 10 then
    (false, .extreme_aspect (aspect_frac width height))
  else
    (true, .ok)

/-- The text-density expression of ImageFilter.is_valuable_image
(src/image_filter.py line 245):
(char_count * 10000) / area if area > 0 else 0. -/
def text_density (char_count area : Nat) : Rat :=
  if 0 < area then (char_count * 10000 : Rat) / (area : Rat) else 0

/-- ImageFilter.is_valuable_image (src/image_filter.py lines 223-285):
dimension gate, then the three-signal decision matrix over the OCR
metrics.  Returns (keep, reason). -/
def is_valuable_image (cfg : FilterConfig) (width height : Nat)
    (ocr : OCRResult) : Bool × Reason :=
  let dims := check_dimensions cfg width height
  if !dims.1 then (false, dims.2)
  else
    let area := width * height
    let density := text_density ocr.char_count area
    let has_good_numbers : Bool := cfg.min_digits ≤ (ocr.digit_count : Int)
    let has_enough_words : Bool := cfg.min_words ≤ (ocr.useful_word_count : Int)
    let has_good_density : Bool := cfg.min_text_density ≤ density
    if cfg.require_numbers && !has_good_numbers then
      (false, .sin_numeros ocr.digit_count)
    else if has_good_numbers && has_good_density then
      (true, .grafico_tabla ocr.digit_count density)
    else if has_enough_words && has_good_density then
      (true, .contenido_denso ocr.useful_word_count density)
    else if cfg.min_digits * 2 ≤ (ocr.digit_count : Int) then
      (true, .datos_numericos ocr.digit_count)
    else
      (false, .logo_banner (!has_good_numbers) (!has_enough_words)
        (!has_good_density) ocr.digit_count ocr.useful_word_count density)

/-- The all-zero OCRResult that ImageFilter.analyze_image_ocr returns when
the OCR collaborator raises (src/image_filter.py lines 189-200). -/
def zero_ocr_result : OCRResult :=
  { text := ""
    char_count := 0
    digit_count := 0
    word_count := 0
    useful_word_count := 0
    has_numbers := false
    confidence_score := 0 }

/-- The decision matrix exactly as the specification (section 4.2) and the
claim word it, for comparison with is_valuable_image: area = width*height
and textDensity = charCount*10000/area (with no guard on area; in Rat a
division by zero yields 0), followed by the ordered matrix. -/
def is_valuable_spec_matrix (cfg : FilterConfig) (width height : Nat)
    (ocr : OCRResult) : Bool × Reason :=
  let area := width * height
  let density : Rat := (ocr.char_count * 10000 : Rat) / (area : Rat)
  let has_good_numbers : Bool := cfg.min_digits ≤ (ocr.digit_count : Int)
  let has_enough_words : Bool := cfg.min_words ≤ (ocr.useful_word_count : Int)
  let has_good_density : Bool := cfg.min_text_density ≤ density
  if cfg.require_numbers && !has_good_numbers then
    (false, .sin_numeros ocr.digit_count)
  else if has_good_numbers && has_good_density then
    (true, .grafico_tabla ocr.digit_count density)
  else if has_enough_words && has_good_density then
    (true, .contenido_denso ocr.useful_word_count density)
  else if cfg.min_digits * 2 ≤ (ocr.digit_count : Int) then
    (true, .datos_numericos ocr.digit_count)
  else
    (false, .logo_banner (!has_good_numbers) (!has_enough_words)
      (!has_good_density) ocr.digit_count ocr.useful_word_count density)

/-! ## Geometry primitives (src/composite_detector.py) -/

/-- An axis-aligned rectangle (x0, y0, x1, y1) in page-point coordinates,
as the 4-tuples of floats used throughout src/composite_detector.py. -/
structure Rect where
  x0 : Rat
  y0 : Rat
  x1 : Rat
  y1 : Rat
deriving Repr, DecidableEq

/-- CompositeChartDetector._boxes_overlap (src/composite_detector.py lines
152-158): not (x1_1 < x0_2 or x1_2 < x0_1 or y1_1 < y0_2 or y1_2 < y0_1). -/
def boxes_overlap (a b : Rect) : Bool :=
  !(a.x1 < b.x0 || b.x1 < a.x0 || a.y1 < b.y0 || b.y1 < a.y0)

/-- CompositeChartDetector._boxes_nearby (src/composite_detector.py lines
160-175): expand the first box by the margin on all four sides, then apply
_boxes_overlap. -/
def boxes_nearby (a b : Rect) (margin : Rat) : Bool :=
  boxes_overlap
    { x0 := a.x0 - margin
      y0 := a.y0 - margin
      x1 := a.x1 + margin
      y1 := a.y1 + margin } b

/-- Membership of a point in the closed rectangle. -/
def in_rect (r : Rect) (px py : Rat) : Prop :=
  r.x0 ≤ px ∧ px ≤ r.x1 ∧ r.y0 ≤ py ∧ py ≤ r.y1

/-! ## Numeric-token counting and string helpers

CompositeChartDetector._count_numbers_in_text (src/composite_detector.py
lines 177-181) counts the non-overlapping matches of the regular expression
d+([.,]d+)?%? (with d the digit class) that re.findall produces, scanning
left to right with greedy digit runs.  The scanner below reproduces that. -/

/-- Given a character list starting with a digit, drop one full match of
the numeric-token pattern: the maximal digit run, then an optional
'.' or ',' followed by a second maximal digit run, then an optional '%'. -/
def after_number_token (l : List Char) : List Char :=
  let r1 := l.dropWhile Char.isDigit
  let r2 := match r1 with
    | c :: d :: rest =>
        if (c = '.' ∨ c = ',') ∧ d.isDigit then
          (d :: rest).dropWhile Char.isDigit
        else r1
    | _ => r1
  match r2 with
  | c :: rest => if c = '%' then rest else r2
  | _ => r2

/-- Fuelled scanner for numeric tokens; fuel bounds the number of characters
examined, so fuel = length of the list suffices. -/
def count_tokens_aux : Nat → List Char → Nat
  | 0, _ => 0
  | _, [] => 0
  | fuel + 1, c :: rest =>
      if c.isDigit then
        1 + count_tokens_aux fuel (after_number_token (c :: rest))
      else
        count_tokens_aux fuel rest

/-- CompositeChartDetector._count_numbers_in_text: the number of matches
of the numeric-token pattern in the text. -/
def count_numbers_in_text (s : String) : Nat :=
  count_tokens_aux s.data.length s.data

/-- Python str.strip on a character list: drop whitespace from both ends. -/
def strip_chars (l : List Char) : List Char :=
  ((l.dropWhile Char.isWhitespace).reverse.dropWhile Char.isWhitespace).reverse

/-- Python str.strip. -/
def py_strip (s : String) : String :=
  ⟨strip_chars s.data⟩

/-- Python sep.join(parts) on character lists. -/
def join_with (sep : List Char) : List (List Char) → List Char
  | [] => []
  | [x] => x
  | x :: xs => x ++ sep ++ join_with sep xs

/-- Python sep.join(parts) on strings. -/
def join_strings (sep : String) (parts : List String) : String :=
  ⟨join_with sep.data (parts.map String.data)⟩

/-- Python string concatenation a + b (used to model the f-string
"overlapping nearby" that glues the two context groups with one space). -/
def str_cat (a b : String) : String :=
  ⟨a.data ++ b.data⟩

/-! ## Composite chart detector (src/composite_detector.py) -/

/-- A positioned text block: the TextBlock dataclass of
src/composite_detector.py (lines 26-31). -/
structure TextBlock where
  text : String
  bbox : Rect
  page_number : Nat
deriving Repr, DecidableEq

/-- The configuration fields of CompositeChartDetector
(src/composite_detector.py lines 58-71), with their JSON-number types:
proximity_margin and min_page_frac are compared against floats, the rest
against ints.  min_page_frac is the source's min_page_ratio. -/
structure CompositeConfig where
  proximity_margin : Rat
  min_chart_width : Int
  min_chart_height : Int
  min_page_frac : Rat
  min_nearby_numbers : Int
  ocr_number_threshold : Int
deriving Repr, DecidableEq

/-- The default composite-detection thresholds (src/composite_detector.py
lines 58-71). -/
def default_composite_config : CompositeConfig :=
  { proximity_margin := 50
    min_chart_width := 200
    min_chart_height := 150
    min_page_frac := 1 / 10
    min_nearby_numbers := 3
    ocr_number_threshold := 2 }

/-- Metadata of one extracted image: the ImageData pydantic model of
src/models.py (lines 91-102).  extracted_at is an arbitrary timestamp,
modelled as a Nat.  bbox is Optional, as in the source. -/
structure ImageData where
  filename : String
  page_number : Nat
  path : String
  width : Nat
  height : Nat
  extracted_at : Nat
  bbox : Option Rect
  context_text : Option String
  is_composite : Bool
deriving Repr, DecidableEq

/-- The field names of the ImageData model, in declaration order
(src/models.py lines 91-102). -/
def image_data_fields : List String :=
  ["filename", "page_number", "path", "width", "height", "extracted_at",
   "bbox", "context_text", "is_composite"]

/-- The confidence mapping of
CompositeChartDetector.find_context_for_image (src/composite_detector.py
lines 237-245) from the numeric-token count of the combined context. -/
def context_confidence (cfg : CompositeConfig) (num_count : Nat) : Rat :=
  if cfg.min_nearby_numbers * 2 ≤ (num_count : Int) then 9 / 10
  else if cfg.min_nearby_numbers ≤ (num_count : Int) then 7 / 10
  else if 1 ≤ num_count then 4 / 10
  else 1 / 10

/-- CompositeChartDetector.find_context_for_image (src/composite_detector.py
lines 206-247): partition the page's text blocks into overlapping and
nearby groups relative to the image bbox, join each group's text with
spaces, and derive a confidence from the combined numeric-token count.
Returns (nearby_text, overlapping_text, confidence); when the image has no
bbox it returns ("", "", 0). -/
def find_context_for_image (cfg : CompositeConfig) (bbox : Option Rect)
    (blocks : List TextBlock) : String × String × Rat :=
  match bbox with
  | none => ("", "", 0)
  | some img_bbox =>
      let overlapping := blocks.filter fun b => boxes_overlap img_bbox b.bbox
      let nearby := blocks.filter fun b =>
        !boxes_overlap img_bbox b.bbox &&
          boxes_nearby img_bbox b.bbox cfg.proximity_margin
      let overlapping_text := join_strings " " (overlapping.map TextBlock.text)
      let nearby_text := join_strings " " (nearby.map TextBlock.text)
      let all_context_text := str_cat overlapping_text (str_cat " " nearby_text)
      let num_count := count_numbers_in_text all_context_text
      (nearby_text, overlapping_text, context_confidence cfg num_count)

/-- CompositeChartDetector._is_potential_chart (src/composite_detector.py
lines 183-204): minimum chart dimensions, and, when the bbox is known and
the page area is positive, a minimum bbox-area to page-area quotient. -/
def is_potential_chart (cfg : CompositeConfig) (width height : Nat)
    (bbox : Option Rect) (page_width page_height : Rat) : Bool :=
  if (width : Int) < cfg.min_chart_width ∨ (height : Int) < cfg.min_chart_height then
    false
  else
    match bbox with
    | some bb =>
        let img_area := (bb.x1 - bb.x0) * (bb.y1 - bb.y0)
        let page_area := page_width * page_height
        if 0 < page_area ∧ img_area / page_area < cfg.min_page_frac then
          false
        else true
    | none => true

/-- The composite decision block of
CompositeChartDetector.enrich_images_with_context (src/composite_detector.py
lines 309-334): given the candidate flag, the numeric-token count of the
combined context, the digit count the filter's OCR found inside the image,
and the context-derived confidence, produce (is_composite, confidence). -/
def composite_decision (cfg : CompositeConfig) (is_potential : Bool)
    (context_numbers ocr_numbers : Nat) (confidence : Rat) : Bool × Rat :=
  if is_potential && decide (cfg.min_nearby_numbers ≤ (context_numbers : Int)) then
    if (ocr_numbers : Int) < cfg.ocr_number_threshold then
      (true, min (95 / 100) (confidence + 2 / 10))
    else if cfg.min_nearby_numbers * 2 ≤ (context_numbers : Int) then
      (true, confidence)
    else (false, confidence)
  else (false, confidence)

/-- The per-image body of
CompositeChartDetector.enrich_images_with_context (src/composite_detector.py
lines 290-353).  resolved_bbox stands for the position that the
index-based bbox lookup (lines 292-301) would supply for this image, or
none when no position is available.  ocr_results is the optional
filename-to-digit-count map. -/
def resolve_bbox (img : ImageData) (resolved_bbox : Option Rect) : ImageData :=
  if img.bbox = none then { img with bbox := resolved_bbox } else img

/-- The context-text assembly of lines 335-343: the overlapping and nearby
groups, stripped, each prefixed with its tag when non-empty, joined by a
newline. -/
def assemble_context (overlapping_text nearby_text : String) : String :=
  join_strings "\n"
    ((if !(py_strip overlapping_text = "") then
        [str_cat "[SOBRE IMAGEN]: " (py_strip overlapping_text)] else []) ++
     (if !(py_strip nearby_text = "") then
        [str_cat "[CERCA DE IMAGEN]: " (py_strip nearby_text)] else []))

def enrich_image (cfg : CompositeConfig) (img : ImageData)
    (resolved_bbox : Option Rect) (blocks : List TextBlock)
    (page_width page_height : Rat)
    (ocr_results : List (String × Nat)) : ImageData :=
  let img := resolve_bbox img resolved_bbox
  let ctx := find_context_for_image cfg img.bbox blocks
  let nearby_text := ctx.1
  let overlapping_text := ctx.2.1
  let confidence := ctx.2.2
  let is_potential :=
    is_potential_chart cfg img.width img.height img.bbox page_width page_height
  let total_context := str_cat overlapping_text (str_cat " " nearby_text)
  let context_numbers := count_numbers_in_text total_context
  let ocr_numbers := (ocr_results.lookup img.filename).getD 0
  let dec := composite_decision cfg is_potential context_numbers ocr_numbers confidence
  if dec.1 || (!(py_strip overlapping_text = "") || !(py_strip nearby_text = "")) then
    { img with
        context_text := some (assemble_context overlapping_text nearby_text)
        is_composite := dec.1 }
  else img

/-! ## Orchestration (src/extractor.py)

DocumentExtractor.extract (src/extractor.py lines 137-176) filters first and
then runs the detector over the surviving images.  The attribute names of
ImageFilter that the source defines, and the ImageFilter attributes that
extract accesses, are transcribed below to settle the claim about the OCR
side-channel. -/

/-- The methods defined on the ImageFilter class
(src/image_filter.py lines 43-315), in declaration order. -/
def image_filter_methods : List String :=
  ["__init__", "_setup_tesseract", "analyze_image_ocr", "check_dimensions",
   "is_valuable_image", "filter_images"]

/-- The methods of self.image_filter that DocumentExtractor.extract invokes
(src/extractor.py lines 152-166). -/
def extract_filter_method_calls : List String :=
  ["filter_images", "get_ocr_results"]

/-! ## Shared lemmas -/

/-- The guarded density of the source equals the unguarded quotient of the
spec, because in Rat a division by zero is zero. -/
theorem text_density_eq (char_count area : Nat) :
    text_density char_count area = (char_count * 10000 : Rat) / (area : Rat) := by
  unfold text_density
  split
  · rfl
  next h =>
    have h0 : area = 0 := by omega
    subst h0
    simp

/-! ## Claims -/

/-- C1.  For every ImageRecord that passes the dimension gate and every
OCRMetrics, the filter's keep/discard decision (and reason payload) is
exactly the spec's decision matrix evaluated in order, with
area = width*height and textDensity = charCount*10000/area. -/
theorem c1_decision_matrix (cfg : FilterConfig) (width height : Nat)
    (ocr : OCRResult) (hdims : (check_dimensions cfg width height).1 = true) :
    is_valuable_image cfg width height ocr =
      is_valuable_spec_matrix cfg width height ocr := by
  unfold is_valuable_image is_valuable_spec_matrix
  simp only [hdims, Bool.not_true, Bool.false_eq_true, if_false, text_density_eq]

/-- Witness for C1 at a concrete input: an 800x600 image with a
chart-like OCR result. -/
theorem c1_witness :
    (check_dimensions default_filter_config 800 600).1 = true ∧
      is_valuable_image default_filter_config 800 600
          ⟨"45 60 12", 6, 6, 3, 3, true, 9 / 10⟩ =
        is_valuable_spec_matrix default_filter_config 800 600
          ⟨"45 60 12", 6, 6, 3, 3, true, 9 / 10⟩ :=
  ⟨by norm_num [check_dimensions, aspect_frac, default_filter_config],
    c1_decision_matrix default_filter_config 800 600 _
      (by norm_num [check_dimensions, aspect_frac, default_filter_config])⟩

/-- C9.  Nearby with margin 0 degenerates exactly to Overlaps, for every
pair of rectangles. -/
theorem c9_nearby_zero_margin (a b : Rect) :
    boxes_nearby a b 0 = boxes_overlap a b := by
  simp [boxes_nearby, boxes_overlap]

/-- C4 counterexample: two rectangles that merely touch at an edge
(a.x1 = b.x0) are reported as overlapping by the source, contradicting the
claim that touching edges do not count. -/
theorem c4_counterexample :
    boxes_overlap ⟨0, 0, 1, 1⟩ ⟨1, 0, 2, 1⟩ = true ∧
      (Rect.mk 0 0 1 1).x1 = (Rect.mk 1 0 2 1).x0 := by
  constructor
  · decide
  · rfl

/-- C4 amended: Overlaps is true iff the closed rectangles intersect,
i.e. share at least one point; rectangles touching at an edge DO count as
overlapping (the separation test is strict, so touching is not
separation). -/
theorem c4_amended (a b : Rect) (hax : a.x0 ≤ a.x1) (hay : a.y0 ≤ a.y1)
    (hbx : b.x0 ≤ b.x1) (hby : b.y0 ≤ b.y1) :
    boxes_overlap a b = true ↔ ∃ px py, in_rect a px py ∧ in_rect b px py := by
  unfold boxes_overlap in_rect
  simp only [Bool.not_eq_true', Bool.or_eq_false_iff, decide_eq_false_iff_not,
    not_lt]
  constructor
  · rintro ⟨⟨⟨h1, h2⟩, h3⟩, h4⟩
    exact ⟨max a.x0 b.x0, max a.y0 b.y0,
      ⟨le_max_left _ _, max_le hax h1, le_max_left _ _, max_le hay h3⟩,
      ⟨le_max_right _ _, max_le h2 hbx, le_max_right _ _, max_le h4 hby⟩⟩
  · rintro ⟨px, py, ⟨hax0, hax1, hay0, hay1⟩, ⟨hbx0, hbx1, hby0, hby1⟩⟩
    exact ⟨⟨⟨le_trans hbx0 hax1, le_trans hax0 hbx1⟩, le_trans hby0 hay1⟩,
      le_trans hay0 hby1⟩

/-- Witness for C4 amended at concrete rectangles. -/
theorem c4_witness :
    boxes_overlap ⟨0, 0, 2, 2⟩ ⟨1, 1, 3, 3⟩ = true ↔
      ∃ px py, in_rect ⟨0, 0, 2, 2⟩ px py ∧ in_rect ⟨1, 1, 3, 3⟩ px py :=
  c4_amended _ _ (by norm_num) (by norm_num) (by norm_num) (by norm_num)

/-- C3.  DocumentExtractor.extract obtains the OCR digit-count map by
calling image_filter.get_ocr_results(), but the ImageFilter class defines
no such method (and filter_images records no per-filename digit counts),
so the call raises AttributeError on any document whose images reach the
filtering phase: the claimed hand-off does not happen. -/
theorem c3_missing_method :
    "get_ocr_results" ∈ extract_filter_method_calls ∧
      "get_ocr_results" ∉ image_filter_methods := by
  decide

/-- C10.  The dimension gate's aspect computation divides by
max(1, min(width, height)), which is positive for all widths and heights
(including 0), and for width, height >= 1 it coincides with
max(w, h)/min(w, h); the gate is total and always produces a
(decision, reason) pair. -/
theorem c10_dimension_gate_total :
    (∀ width height : Nat,
      0 < aspect_denom width height ∧
        aspect_frac width height =
          ((max width height : Nat) : Rat) / ((aspect_denom width height : Nat) : Rat)) ∧
    (∀ width height : Nat, 1 ≤ width → 1 ≤ height →
      aspect_frac width height =
        ((max width height : Nat) : Rat) / ((min width height : Nat) : Rat)) := by
  constructor
  · intro width height
    constructor
    · simp [aspect_denom]
    · simp only [aspect_frac, aspect_denom]
      push_cast
      rfl
  · intro width height hw hh
    have h1 : (1 : Rat) ≤ min (width : Rat) (height : Rat) :=
      le_min (by exact_mod_cast hw) (by exact_mod_cast hh)
    simp only [aspect_frac]
    push_cast
    rw [max_eq_right h1]

/-- Witness for C10 at concrete dimensions, including the degenerate 0x0
case for positivity. -/
theorem c10_witness :
    0 < aspect_denom 0 0 ∧
      aspect_frac 3 4 = ((max 3 4 : Nat) : Rat) / ((min 3 4 : Nat) : Rat) :=
  ⟨(c10_dimension_gate_total.1 0 0).1,
    c10_dimension_gate_total.2 3 4 (by decide) (by decide)⟩

/-- Characterization of the keep decision of is_valuable_image as a
proposition. -/
theorem is_valuable_keep_iff (cfg : FilterConfig) (w h : Nat) (ocr : OCRResult) :
    (is_valuable_image cfg w h ocr).1 = true ↔
      ((check_dimensions cfg w h).1 = true ∧
       (cfg.require_numbers = true → cfg.min_digits ≤ (ocr.digit_count : Int)) ∧
       ((cfg.min_digits ≤ (ocr.digit_count : Int) ∧
           cfg.min_text_density ≤ text_density ocr.char_count (w * h)) ∨
        (cfg.min_words ≤ (ocr.useful_word_count : Int) ∧
           cfg.min_text_density ≤ text_density ocr.char_count (w * h)) ∨
        cfg.min_digits * 2 ≤ (ocr.digit_count : Int))) := by
  unfold is_valuable_image
  cases hdim : (check_dimensions cfg w h).1 <;>
    by_cases hrq : cfg.require_numbers = true <;>
    by_cases hgn : cfg.min_digits ≤ (ocr.digit_count : Int) <;>
    by_cases hew : cfg.min_words ≤ (ocr.useful_word_count : Int) <;>
    by_cases hgd : cfg.min_text_density ≤ text_density ocr.char_count (w * h) <;>
    by_cases h2d : cfg.min_digits * 2 ≤ (ocr.digit_count : Int) <;>
    simp [hdim, hrq, hgn, hew, hgd, h2d]

/-- C5 counterexample: with the default thresholds, an 800x600 image whose
OCR failed (all-zero metrics) is discarded with the ordinary
"probable logo/banner" reason listing the three zero signals; the source
has no "ocr failure" reason at all, contradicting the claimed reason
string. -/
theorem c5_counterexample :
    is_valuable_image default_filter_config 800 600 zero_ocr_result =
      (false, Reason.logo_banner true true true 0 0 0) := by
  norm_num [is_valuable_image, check_dimensions, aspect_frac, text_density,
    default_filter_config, zero_ocr_result]

/-- C5 amended: the filter never raises for a single image (every decision
function here is total); an OCR failure degrades the metrics to the
all-zero OCRResult and, whenever minDigits >= 1 and minWords >= 1 (the
defaults are 2 and 5), the image is discarded — but with the standard
"no numbers" / "probable logo/banner" reason, not a dedicated
"ocr failure" reason. -/
theorem c5_amended (cfg : FilterConfig) (w h : Nat)
    (hd : 1 ≤ cfg.min_digits) (hw : 1 ≤ cfg.min_words) :
    (is_valuable_image cfg w h zero_ocr_result).1 = false := by
  cases hk : (is_valuable_image cfg w h zero_ocr_result).1
  · rfl
  · exfalso
    rw [is_valuable_keep_iff] at hk
    obtain ⟨-, -, h3⟩ := hk
    simp only [zero_ocr_result, Nat.cast_zero] at h3
    rcases h3 with ⟨ha, -⟩ | ⟨ha, -⟩ | ha <;> omega

/-- Witness for C5 amended at the default configuration. -/
theorem c5_witness :
    1 ≤ default_filter_config.min_digits ∧
      1 ≤ default_filter_config.min_words ∧
      (is_valuable_image default_filter_config 800 600 zero_ocr_result).1 = false :=
  ⟨by decide, by decide,
    c5_amended default_filter_config 800 600 (by decide) (by decide)⟩

/-- C8.  For a fixed image and fixed OCR metrics, raising min_digits or
min_words never turns a discard into a keep. -/
theorem c8_threshold_monotone (cfg : FilterConfig) (d w : Int)
    (width height : Nat) (ocr : OCRResult)
    (hd : cfg.min_digits ≤ d) (hw : cfg.min_words ≤ w)
    (hdisc : (is_valuable_image cfg width height ocr).1 = false) :
    (is_valuable_image { cfg with min_digits := d, min_words := w }
        width height ocr).1 = false := by
  cases hk : (is_valuable_image { cfg with min_digits := d, min_words := w }
      width height ocr).1
  · rfl
  · exfalso
    rw [is_valuable_keep_iff] at hk
    dsimp only at hk
    have hkeep : (is_valuable_image cfg width height ocr).1 = true := by
      rw [is_valuable_keep_iff]
      obtain ⟨h1, h2, h3⟩ := hk
      refine ⟨h1, fun hr => ?_, ?_⟩
      · have := h2 hr
        omega
      · rcases h3 with ⟨ha, hb⟩ | ⟨ha, hb⟩ | ha
        · exact Or.inl ⟨by omega, hb⟩
        · exact Or.inr (Or.inl ⟨by omega, hb⟩)
        · exact Or.inr (Or.inr (by omega))
    rw [hkeep] at hdisc
    cases hdisc

/-- Witness for C8: a discarded zero-metric image stays discarded when both
thresholds are raised. -/
theorem c8_witness :
    default_filter_config.min_digits ≤ 3 ∧
      default_filter_config.min_words ≤ 6 ∧
      (is_valuable_image { default_filter_config with
          min_digits := 3, min_words := 6 } 800 600 zero_ocr_result).1 = false :=
  ⟨by decide, by decide,
    c8_threshold_monotone default_filter_config 3 6 800 600 zero_ocr_result
      (by decide) (by decide)
      (by norm_num [is_valuable_image, check_dimensions, aspect_frac,
        text_density, default_filter_config, zero_ocr_result])⟩

/-- Characterization of the candidate gate when the page area is
positive. -/
theorem is_potential_chart_iff (cfg : CompositeConfig) (w h : Nat)
    (bbox : Option Rect) (pw ph : Rat) (hpage : 0 < pw * ph) :
    is_potential_chart cfg w h bbox pw ph = true ↔
      (cfg.min_chart_width ≤ (w : Int) ∧ cfg.min_chart_height ≤ (h : Int) ∧
       ∀ bb, bbox = some bb →
         cfg.min_page_frac ≤ ((bb.x1 - bb.x0) * (bb.y1 - bb.y0)) / (pw * ph)) := by
  unfold is_potential_chart
  split
  next hlt =>
    simp only [Bool.false_eq_true, false_iff]
    rintro ⟨h1, h2, -⟩
    omega
  next hge =>
    push_neg at hge
    cases bbox with
    | none =>
        simp only [true_iff]
        exact ⟨by omega, by omega, fun bb hbb => by cases hbb⟩
    | some bb =>
        dsimp only
        split
        next hcond =>
          simp only [Bool.false_eq_true, false_iff]
          rintro ⟨-, -, hall⟩
          exact absurd hcond.2 (not_lt.2 (hall bb rfl))
        next hcond =>
          simp only [true_iff]
          push_neg at hcond
          refine ⟨by omega, by omega, fun bb2 hbb2 => ?_⟩
          cases hbb2
          exact hcond hpage

/-- Characterization of the composite flag produced by the decision
block. -/
theorem composite_decision_fst (cfg : CompositeConfig) (pot : Bool)
    (ctxN ocrN : Nat) (conf : Rat) :
    (composite_decision cfg pot ctxN ocrN conf).1 = true ↔
      (pot = true ∧ cfg.min_nearby_numbers ≤ (ctxN : Int) ∧
       ((ocrN : Int) < cfg.ocr_number_threshold ∨
         cfg.min_nearby_numbers * 2 ≤ (ctxN : Int))) := by
  unfold composite_decision
  by_cases hmnn : cfg.min_nearby_numbers ≤ (ctxN : Int) <;>
    by_cases hocr : (ocrN : Int) < cfg.ocr_number_threshold <;>
    by_cases h2 : cfg.min_nearby_numbers * 2 ≤ (ctxN : Int) <;>
    cases pot <;>
    simp [hmnn, hocr, h2]

/-- The confidence the decision block reports when it flags a
composite. -/
theorem composite_decision_snd (cfg : CompositeConfig) (pot : Bool)
    (ctxN ocrN : Nat) (conf : Rat)
    (hc : (composite_decision cfg pot ctxN ocrN conf).1 = true) :
    (composite_decision cfg pot ctxN ocrN conf).2 =
      if (ocrN : Int) < cfg.ocr_number_threshold then
        min (95 / 100 : Rat) (conf + 2 / 10)
      else conf := by
  unfold composite_decision at hc ⊢
  split_ifs at hc ⊢ <;> simp_all

/-- C2.  Under a positive page area: the decision block flags an image
composite exactly when it is a chart candidate (minimum width, minimum
height, and, when the bbox is known, a page-area quotient of at least
min_page_frac), the combined context has at least min_nearby_numbers
numeric tokens, and either the image's own OCR digit count is below
ocr_number_threshold or the context count reaches twice
min_nearby_numbers; when flagged via the low-OCR branch the confidence
becomes min(0.95, confidence + 0.2), otherwise it keeps the
number-derived confidence. -/
theorem c2_composite_decision (cfg : CompositeConfig) (w h : Nat)
    (bbox : Option Rect) (pw ph conf : Rat) (ctxN ocrN : Nat)
    (hpage : 0 < pw * ph) :
    ((composite_decision cfg (is_potential_chart cfg w h bbox pw ph)
        ctxN ocrN conf).1 = true ↔
      (cfg.min_chart_width ≤ (w : Int) ∧ cfg.min_chart_height ≤ (h : Int) ∧
       (∀ bb, bbox = some bb →
         cfg.min_page_frac ≤ ((bb.x1 - bb.x0) * (bb.y1 - bb.y0)) / (pw * ph)) ∧
       cfg.min_nearby_numbers ≤ (ctxN : Int) ∧
       ((ocrN : Int) < cfg.ocr_number_threshold ∨
         cfg.min_nearby_numbers * 2 ≤ (ctxN : Int)))) ∧
    ((composite_decision cfg (is_potential_chart cfg w h bbox pw ph)
        ctxN ocrN conf).1 = true →
      (composite_decision cfg (is_potential_chart cfg w h bbox pw ph)
          ctxN ocrN conf).2 =
        if (ocrN : Int) < cfg.ocr_number_threshold then
          min (95 / 100 : Rat) (conf + 2 / 10)
        else conf) := by
  constructor
  · rw [composite_decision_fst, is_potential_chart_iff cfg w h bbox pw ph hpage]
    tauto
  · exact composite_decision_snd cfg _ ctxN ocrN conf

/-- Witness for C2 at Scenario C of the spec: a 300x200 image with bbox
(100,100,400,300) on a 612x792 page, context count 3, no OCR digits. -/
theorem c2_witness :
    ((composite_decision default_composite_config
        (is_potential_chart default_composite_config 300 200
          (some ⟨100, 100, 400, 300⟩) 612 792) 3 0 (7 / 10)).1 = true ↔
      (default_composite_config.min_chart_width ≤ (300 : Int) ∧
       default_composite_config.min_chart_height ≤ (200 : Int) ∧
       (∀ bb, (some (Rect.mk 100 100 400 300) : Option Rect) = some bb →
         default_composite_config.min_page_frac ≤
           ((bb.x1 - bb.x0) * (bb.y1 - bb.y0)) / ((612 : Rat) * 792)) ∧
       default_composite_config.min_nearby_numbers ≤ (3 : Int) ∧
       (((0 : Nat) : Int) < default_composite_config.ocr_number_threshold ∨
         default_composite_config.min_nearby_numbers * 2 ≤ (3 : Int)))) ∧
    ((composite_decision default_composite_config
        (is_potential_chart default_composite_config 300 200
          (some ⟨100, 100, 400, 300⟩) 612 792) 3 0 (7 / 10)).1 = true →
      (composite_decision default_composite_config
          (is_potential_chart default_composite_config 300 200
            (some ⟨100, 100, 400, 300⟩) 612 792) 3 0 (7 / 10)).2 =
        if ((0 : Nat) : Int) < default_composite_config.ocr_number_threshold then
          min (95 / 100 : Rat) (7 / 10 + 2 / 10)
        else (7 / 10)) :=
  c2_composite_decision default_composite_config 300 200
    (some ⟨100, 100, 400, 300⟩) 612 792 (7 / 10) 3 0 (by norm_num)

/-- bbox resolution touches only the bbox field. -/
theorem resolve_bbox_fields (img : ImageData) (r : Option Rect) :
    (resolve_bbox img r).filename = img.filename ∧
    (resolve_bbox img r).page_number = img.page_number ∧
    (resolve_bbox img r).path = img.path ∧
    (resolve_bbox img r).width = img.width ∧
    (resolve_bbox img r).height = img.height ∧
    (resolve_bbox img r).extracted_at = img.extracted_at ∧
    (resolve_bbox img r).context_text = img.context_text ∧
    (resolve_bbox img r).is_composite = img.is_composite := by
  unfold resolve_bbox
  split <;> simp

/-- A positive token count requires a digit somewhere in the text. -/
theorem count_tokens_aux_pos (fuel : Nat) (l : List Char)
    (h : 0 < count_tokens_aux fuel l) : ∃ c ∈ l, c.isDigit = true := by
  induction fuel generalizing l with
  | zero => simp [count_tokens_aux] at h
  | succ n ih =>
      cases l with
      | nil => simp [count_tokens_aux] at h
      | cons c rest =>
          by_cases hc : c.isDigit = true
          · exact ⟨c, List.mem_cons_self c rest, hc⟩
          · rw [count_tokens_aux, if_neg hc] at h
            obtain ⟨d, hd, hdd⟩ := ih rest h
            exact ⟨d, List.mem_cons_of_mem c hd, hdd⟩

/-- A digit is not whitespace. -/
theorem digit_not_whitespace (c : Char) (h : c.isDigit = true) :
    c.isWhitespace = false := by
  by_contra hw
  rw [Bool.not_eq_false, Char.isWhitespace] at hw
  simp only [Bool.or_eq_true, decide_eq_true_eq] at hw
  rcases hw with ((h1 | h1) | h1) | h1 <;> subst h1 <;> exact absurd h (by decide)

/-- dropWhile keeps some non-whitespace character when one is present. -/
theorem exists_not_ws_dropWhile (l : List Char) (c : Char) (hc : c ∈ l)
    (hcw : c.isWhitespace = false) :
    ∃ d ∈ l.dropWhile Char.isWhitespace, d.isWhitespace = false := by
  induction l with
  | nil => cases hc
  | cons a t ih =>
      by_cases ha : a.isWhitespace = true
      · rw [List.dropWhile_cons_of_pos ha]
        rcases List.mem_cons.1 hc with rfl | hct
        · rw [hcw] at ha
          cases ha
        · exact ih hct
      · rw [List.dropWhile_cons_of_neg ha]
        exact ⟨a, List.mem_cons_self a t, Bool.not_eq_true _ ▸ ha⟩

/-- Stripping a text that contains a non-whitespace character leaves it
non-empty. -/
theorem strip_chars_ne_nil (l : List Char) (c : Char) (hc : c ∈ l)
    (hcw : c.isWhitespace = false) : strip_chars l ≠ [] := by
  unfold strip_chars
  obtain ⟨d, hd, hdw⟩ := exists_not_ws_dropWhile l c hc hcw
  obtain ⟨e, he, -⟩ :=
    exists_not_ws_dropWhile _ d (List.mem_reverse.2 hd) hdw
  intro hnil
  rw [List.reverse_eq_nil_iff] at hnil
  rw [hnil] at he
  cases he

/-- py_strip of a text containing a digit is not the empty string. -/
theorem py_strip_ne_empty (s : String) (c : Char) (hc : c ∈ s.data)
    (hd : c.isDigit = true) : ¬ (py_strip s = "") := by
  intro h
  have hdata := congrArg String.data h
  exact strip_chars_ne_nil s.data c hc (digit_not_whitespace c hd) hdata

/-- The assembled context text is non-empty as soon as one of the stripped
groups is non-empty. -/
theorem assemble_context_ne_empty (o n : String)
    (h : ¬ (py_strip o = "") ∨ ¬ (py_strip n = "")) :
    assemble_context o n ≠ "" := by
  unfold assemble_context join_strings
  by_cases ho : py_strip o = "" <;> by_cases hn : py_strip n = "" <;>
    simp only [ho, hn, not_true, not_false_iff, if_true, if_false,
      Bool.not_eq_true, decide_eq_false_iff_not, ite_not] <;>
    intro hEq
  · tauto
  all_goals
    have hdata := congrArg String.data hEq
    simp [join_with, str_cat] at hdata

/-- C6 counterexample: the ImageData record carries no confidence field at
all (src/models.py lines 91-102), so the Detector cannot write the
computed confidence onto the record, contrary to the claim. -/
theorem c6_counterexample : "confidence" ∉ image_data_fields := by
  decide

/-- C6 amended: per-image enrichment mutates only context_text,
is_composite and bbox; filename, page number, path, width, height and the
extraction timestamp are unchanged.  The computed confidence is not stored
anywhere on the record. -/
theorem c6_frame (cfg : CompositeConfig) (img : ImageData)
    (resolved : Option Rect) (blocks : List TextBlock) (pw ph : Rat)
    (ocr : List (String × Nat)) :
    (enrich_image cfg img resolved blocks pw ph ocr).filename = img.filename ∧
    (enrich_image cfg img resolved blocks pw ph ocr).page_number = img.page_number ∧
    (enrich_image cfg img resolved blocks pw ph ocr).path = img.path ∧
    (enrich_image cfg img resolved blocks pw ph ocr).width = img.width ∧
    (enrich_image cfg img resolved blocks pw ph ocr).height = img.height ∧
    (enrich_image cfg img resolved blocks pw ph ocr).extracted_at = img.extracted_at := by
  obtain ⟨f, p, pa, w2, h2, e, -, -⟩ := resolve_bbox_fields img resolved
  unfold enrich_image
  dsimp only
  split <;> exact ⟨f, p, pa, w2, h2, e⟩

/-- The concatenation underlying the combined context string. -/
theorem str_cat_data (a b : String) :
    (str_cat a b).data = a.data ++ b.data := rfl

/-- C7 amended: whenever min_nearby_numbers >= 1 (the default is 3) and the
input record is not already marked composite (the extractor's default),
every record the per-image enrichment marks composite carries a non-empty
context_text.  The invariant fails for min_nearby_numbers <= 0, see the
counterexample. -/
theorem c7_composite_has_context (cfg : CompositeConfig) (img : ImageData)
    (resolved : Option Rect) (blocks : List TextBlock) (pw ph : Rat)
    (ocr : List (String × Nat))
    (hmnn : 1 ≤ cfg.min_nearby_numbers) (hinit : img.is_composite = false)
    (hcomp : (enrich_image cfg img resolved blocks pw ph ocr).is_composite = true) :
    ∃ s, (enrich_image cfg img resolved blocks pw ph ocr).context_text = some s ∧
      s ≠ "" := by
  unfold enrich_image at hcomp ⊢
  dsimp only at hcomp ⊢
  split_ifs at hcomp ⊢ with hbr
  · refine ⟨_, rfl, ?_⟩
    rw [composite_decision_fst] at hcomp
    obtain ⟨-, hge, -⟩ := hcomp
    have hpos : 0 < count_numbers_in_text
        (str_cat (find_context_for_image cfg (resolve_bbox img resolved).bbox blocks).2.1
          (str_cat " " (find_context_for_image cfg (resolve_bbox img resolved).bbox blocks).1)) := by
      omega
    obtain ⟨c, hcmem, hcd⟩ := count_tokens_aux_pos _ _ hpos
    rw [str_cat_data, str_cat_data] at hcmem
    rcases List.mem_append.1 hcmem with ho | hn
    · exact assemble_context_ne_empty _ _
        (Or.inl (py_strip_ne_empty _ c ho hcd))
    · rcases List.mem_append.1 hn with hsp | hn2
      · rw [List.mem_singleton.1 hsp] at hcd
        exact absurd hcd (by decide)
      · exact assemble_context_ne_empty _ _
          (Or.inr (py_strip_ne_empty _ c hn2 hcd))
  · rw [(resolve_bbox_fields img resolved).2.2.2.2.2.2.2, hinit] at hcomp
    cases hcomp

/-- For a record not already marked composite, the composite flag that
enrich_image writes is exactly the one the decision block computes from the
resolved record's dimensions, context counts and OCR digit count. -/
theorem enrich_image_is_composite (cfg : CompositeConfig) (img : ImageData)
    (resolved : Option Rect) (blocks : List TextBlock) (pw ph : Rat)
    (ocr : List (String × Nat)) (hinit : img.is_composite = false) :
    (enrich_image cfg img resolved blocks pw ph ocr).is_composite =
      (composite_decision cfg
        (is_potential_chart cfg (resolve_bbox img resolved).width
          (resolve_bbox img resolved).height (resolve_bbox img resolved).bbox
          pw ph)
        (count_numbers_in_text
          (str_cat (find_context_for_image cfg (resolve_bbox img resolved).bbox blocks).2.1
            (str_cat " " (find_context_for_image cfg (resolve_bbox img resolved).bbox blocks).1)))
        ((ocr.lookup (resolve_bbox img resolved).filename).getD 0)
        (find_context_for_image cfg (resolve_bbox img resolved).bbox blocks).2.2).1 := by
  unfold enrich_image
  dsimp only
  split_ifs with h
  · rfl
  · rw [(resolve_bbox_fields img resolved).2.2.2.2.2.2.2, hinit]
    rw [Bool.or_eq_true, not_or] at h
    exact (Bool.not_eq_true _ ▸ h.1).symm

/-- A composite-detection configuration with min_nearby_numbers = 0
(every threshold is overridable in config.json). -/
def zero_nearby_config : CompositeConfig :=
  { proximity_margin := 50
    min_chart_width := 200
    min_chart_height := 150
    min_page_frac := 1 / 10
    min_nearby_numbers := 0
    ocr_number_threshold := 2 }

/-- A freshly extracted 800x600 image with no resolved bbox. -/
def plain_image : ImageData :=
  { filename := "page1_img0.png"
    page_number := 1
    path := "output/images/page1_img0.png"
    width := 800
    height := 600
    extracted_at := 0
    bbox := none
    context_text := none
    is_composite := false }

/-- C7 counterexample: with min_nearby_numbers = 0, a chart-sized image
with no bbox, no text blocks and no OCR digits is marked composite while
its context_text is set to the empty string — the invariant does not hold
for every configuration. -/
theorem c7_counterexample :
    (enrich_image zero_nearby_config plain_image none [] 612 792 []).is_composite
        = true ∧
      (enrich_image zero_nearby_config plain_image none [] 612 792 []).context_text
        = some "" := by
  norm_num [enrich_image, resolve_bbox, find_context_for_image,
    is_potential_chart, composite_decision, count_numbers_in_text,
    count_tokens_aux, after_number_token, str_cat, py_strip, strip_chars,
    join_strings, join_with, assemble_context, zero_nearby_config,
    plain_image]
  decide

/-- The Scenario C image: 300x200 pixels at page position
(100,100,400,300). -/
def scenario_c_image : ImageData :=
  { plain_image with
      bbox := some ⟨100, 100, 400, 300⟩
      width := 300
      height := 200 }

/-- The Scenario C text block overlapping the image. -/
def scenario_c_block : TextBlock :=
  { text := "45% 60% 12%", bbox := ⟨110, 110, 390, 290⟩, page_number := 1 }

/-- Witness for C7 at Scenario C of the spec, where the enrichment does
mark the image composite. -/
theorem c7_witness :
    ∃ s,
      (enrich_image default_composite_config scenario_c_image none
          [scenario_c_block] 612 792 []).context_text = some s ∧ s ≠ "" := by
  refine c7_composite_has_context default_composite_config scenario_c_image
    none [scenario_c_block] 612 792 [] (by decide) (by decide) ?_
  have hover : boxes_overlap ⟨100, 100, 400, 300⟩ ⟨110, 110, 390, 290⟩ = true := by
    decide
  have hjoin1 : join_strings " " ["45% 60% 12%"] = "45% 60% 12%" := by decide
  have hjoin0 : join_strings " " ([] : List String) = "" := by decide
  have hcount : count_numbers_in_text
      (str_cat "45% 60% 12%" (str_cat " " "")) = 3 := by decide
  have hctx : find_context_for_image default_composite_config
      (some ⟨100, 100, 400, 300⟩) [scenario_c_block] =
        ("", "45% 60% 12%", 7 / 10) := by
    norm_num [find_context_for_image, List.filter_cons, List.filter_nil,
      hover, hjoin1, hjoin0, hcount, context_confidence,
      default_composite_config, scenario_c_block]
  have hres : resolve_bbox scenario_c_image none = scenario_c_image := rfl
  have hbb : scenario_c_image.bbox = some ⟨100, 100, 400, 300⟩ := rfl
  simp only [enrich_image, hres, hbb, hctx]
  norm_num [composite_decision, is_potential_chart, hcount, scenario_c_image,
    plain_image, default_composite_config]

end DocScrape
